import Mathlib

/-!
Shallow embedding of `src/maya_video_call.py` (the MayaAI voice companion).

External collaborators (microphone, speech recognition, the Groq chat model,
edge-tts, pygame, `random`) are modelled as oracle inputs supplied per call or
per loop iteration; the control flow, string matching and state updates are
translated directly from the Python source.
-/

namespace Maya

/-- Python substring containment: `sub in s` on strings. -/
def containsSub (s sub : String) : Bool := decide (sub.data <:+: s.data)

/-- Python `str.lower()`: lowercase each character. -/
def pyLower (s : String) : String := String.mk (s.data.map Char.toLower)

/-- Whitespace characters stripped by Python `str.strip()` (ASCII set). -/
def isPySpace (c : Char) : Bool :=
  c = ' ' || c = '\t' || c = '\n' || c = '\r' || c = '\x0b' || c = '\x0c'

/-- Python `str.strip()`: drop whitespace from both ends. -/
def pyStrip (s : String) : String :=
  String.mk (((s.data.dropWhile isPySpace).reverse.dropWhile isPySpace).reverse)

/-- The goodbye vocabulary of `MayaAI.is_goodbye` (source line 224). -/
def goodbye_words : List String := ["bye", "goodbye", "quit", "exit", "stop", "end"]

/-- `MayaAI.is_goodbye` (source lines 222-225):
`any(word in text.lower() for word in goodbye_words)`. -/
def is_goodbye (text : String) : Bool :=
  goodbye_words.any (fun word => containsSub (pyLower text) word)

/-- Distress-category canned sentences (source lines 197-201). -/
def distress_responses : List String :=
  ["I\x27m sorry you\x27re feeling that way. I\x27m here to listen.",
   "That sounds rough. Do you want to talk about it?",
   "I hear you. You’re not alone in this."]

/-- Positive-affect canned sentences (source lines 203-207). -/
def positive_responses : List String :=
  ["That\x27s wonderful! Tell me more!",
   "I’m so glad to hear that. What made you feel this way?",
   "Your happiness makes me happy too!"]

/-- Fatigue canned sentences (source lines 209-213). -/
def tired_responses : List String :=
  ["You sound tired. Make sure you rest well.",
   "Sleep is important. Have you been overworking?",
   "Take care of yourself, okay?"]

/-- Default canned sentences (source lines 215-219). -/
def default_responses : List String :=
  ["That\x27s interesting. Tell me more!",
   "I\x27m listening closely. What else is on your mind?",
   "Thanks for sharing. How does that make you feel?"]

/-- Model of `random.choice(l)`: the random draw is supplied as an oracle
index `k`; any element can be selected by a suitable `k`. -/
def pychoice (l : List String) (k : Nat) : String := l.getD (k % l.length) ""

/-- `MayaAI._get_fallback_response` (source lines 193-220); `k` is the oracle
for `random.choice`. -/
def _get_fallback_response (user_input : String) (k : Nat) : String :=
  let user_lower := pyLower user_input
  if ["sad", "upset", "bad", "terrible"].any (fun word => containsSub user_lower word) then
    pychoice distress_responses k
  else if ["happy", "good", "great", "excited"].any (fun word => containsSub user_lower word) then
    pychoice positive_responses k
  else if ["tired", "exhausted", "sleepy"].any (fun word => containsSub user_lower word) then
    pychoice tired_responses k
  else
    pychoice default_responses k

/-- Role of a turn stored in the conversation memory
(`ConversationBufferMemory.chat_memory`). -/
inductive Role
  | user
  | assistant
deriving DecidableEq, Repr

/-- The conversation memory: an ordered list of (role, text) turns. -/
abbrev Memory := List (Role × String)

/-- Outcome of one `ai_client.ainvoke` call, supplied as an oracle:
either the completion text or an exception. -/
inductive LMOutcome
  | success (content : String)
  | failure
deriving DecidableEq, Repr

/-- `MayaAI.get_ai_response` (source lines 170-191).  `hasClient` is whether
`self.ai_client` is set; `outcome` is the oracle for the model call; `k` is
the oracle for `random.choice` in the fallback.  Returns the spoken reply and
the updated memory: on the success path the user and assistant turns are
appended (lines 185-186); on the no-client and exception paths the fallback
responder answers and memory is untouched. -/
def get_ai_response (hasClient : Bool) (outcome : LMOutcome) (k : Nat)
    (memory : Memory) (user_input : String) : String × Memory :=
  if hasClient = false then
    (_get_fallback_response user_input k, memory)
  else
    match outcome with
    | LMOutcome.success content =>
        let ai_response := pyStrip content
        (ai_response, memory ++ [(Role.user, user_input), (Role.assistant, ai_response)])
    | LMOutcome.failure =>
        (_get_fallback_response user_input k, memory)

/-- The three mouth images loaded in `MayaAI.__init__` (source lines 42-50). -/
inductive Face
  | mouth_closed
  | mouth_half
  | mouth_open
deriving DecidableEq, Repr

/-- Observable effects of one `MayaAI.speak` call (source lines 128-161). -/
structure SpeakOut where
  printed : List String
  tmp_created : Bool
  playback_started : Bool
  frames : List Face
  tmp_deleted : Bool
  current_face : Face
deriving DecidableEq, Repr

/-- `MayaAI.speak` (source lines 128-161).  `current_face` is the avatar state
on entry; `ttsOk` is the oracle for whether the edge-tts synthesis raises;
`picks` is the oracle for the random mouth frames drawn while audio plays.
Empty-after-strip text returns at line 131 before any effect; on the success
path the text is printed, a temporary file is created and later unlinked,
playback starts in a thread, the animation draws `picks` and the face is
reset to closed; on a synthesis error only the print has happened and the
error is logged. -/
def speak (text : String) (current_face : Face) (ttsOk : Bool) (picks : List Face) :
    SpeakOut :=
  if pyStrip text = "" then
    { printed := [], tmp_created := false, playback_started := false,
      frames := [], tmp_deleted := false, current_face := current_face }
  else if ttsOk then
    { printed := [text], tmp_created := true, playback_started := true,
      frames := picks ++ [Face.mouth_closed], tmp_deleted := true,
      current_face := Face.mouth_closed }
  else
    { printed := [text], tmp_created := false, playback_started := false,
      frames := [], tmp_deleted := false, current_face := current_face }

/-- A pygame event as seen by the loop (source lines 246-249): only the QUIT
type is distinguished. -/
inductive PyEvent
  | quit
  | other
deriving DecidableEq, Repr

/-- How one iteration of the `try` block behaves with respect to exceptions:
`ok` means no exception escapes the body, `exc` an `Exception` (source lines
279-281), `kbInt` a `KeyboardInterrupt` (source lines 276-278). -/
inductive TurnFault
  | ok
  | exc
  | kbInt
deriving DecidableEq, Repr

/-- Oracle inputs consumed by one iteration of the `while running` loop:
the pending pygame events, the exception behaviour, the three `time.time()`
readings (session check line 253, inactivity check line 256, activity reset
line 264), the `listen_for_speech` result, the model-call outcome and the
`random.choice` draw. -/
structure TurnInput where
  events : List PyEvent
  fault : TurnFault
  t1 : Int
  t2 : Int
  heard : String
  t3 : Int
  lm : LMOutcome
  rand : Nat
deriving Repr

/-- Mutable state of `run_conversation` across iterations (source lines
238-243 plus the conversation memory). -/
structure LoopState where
  sessionStart : Int
  lastActivity : Int
  memory : Memory
  running : Bool
deriving DecidableEq, Repr

/-- `SESSION_LIMIT = 5 * 60` (source line 240). -/
def SESSION_LIMIT : Int := 5 * 60

/-- `INACTIVITY_LIMIT = 2 * 60` (source line 241). -/
def INACTIVITY_LIMIT : Int := 2 * 60

/-- Farewell spoken on a QUIT event or a KeyboardInterrupt
(source lines 248 and 277). -/
def quit_farewell : String := "Alright, I\x27ll see you later!"

/-- Farewell spoken when the session limit expires (source line 254). -/
def session_farewell : String := "Our session is ending now. See you next time!"

/-- Farewell spoken when the inactivity limit expires (source line 257). -/
def inactivity_farewell : String :=
  "I didn’t hear you for a while, so I’ll end our chat. Bye!"

/-- Farewell spoken on a goodbye utterance (source lines 268-270; Python
concatenates the three adjacent literals). -/
def goodbye_farewell : String :=
  "It was lovely chatting with you. I won’t remember this next time, but I enjoyed talking to you now."

/-- Apology spoken when an exception is caught during a turn
(source line 281). -/
def apology : String := "Oops, something went wrong. Let\x27s try again."

/-- Greeting spoken before the loop (source line 236). -/
def greeting : String := "Hey! I\x27m Maya. How are you feeling today?"

/-- The `for event in pygame.event.get()` poll (source lines 246-249): each
QUIT event speaks the farewell and sets `running` to `False`.  Returns the
utterances passed to `speak` and the resulting `running` flag. -/
def pollEvents (running : Bool) (events : List PyEvent) : List String × Bool :=
  events.foldl
    (fun acc e =>
      match e with
      | PyEvent.quit => (acc.1 ++ [quit_farewell], false)
      | PyEvent.other => acc)
    ([], running)

/-- Result of the `try ... except` body of one iteration. -/
structure BodyResult where
  st : LoopState
  spoken : List String
  brk : Bool
  listened : Bool
  aiCalled : Bool
  errorLogged : Bool
deriving Repr

/-- The `try ... except` body of one loop iteration (source lines 251-281),
given the state after the event poll.  `hasClient` is whether
`self.ai_client` is set.  `spoken` lists the utterances passed to `speak`,
`brk` whether the body executes `break`, `listened` whether a
`listen_for_speech` attempt began, `aiCalled` whether `get_ai_response` was
invoked. -/
def tryBody (hasClient : Bool) (st : LoopState) (inp : TurnInput) : BodyResult :=
  match inp.fault with
  | TurnFault.kbInt =>
      { st := st, spoken := [quit_farewell], brk := true, listened := false,
        aiCalled := false, errorLogged := false }
  | TurnFault.exc =>
      { st := st, spoken := [apology], brk := false, listened := false,
        aiCalled := false, errorLogged := true }
  | TurnFault.ok =>
      if inp.t1 - st.sessionStart > SESSION_LIMIT then
        { st := st, spoken := [session_farewell], brk := true, listened := false,
          aiCalled := false, errorLogged := false }
      else if inp.t2 - st.lastActivity > INACTIVITY_LIMIT then
        { st := st, spoken := [inactivity_farewell], brk := true, listened := false,
          aiCalled := false, errorLogged := false }
      else
        let user_input := inp.heard
        if user_input = "" then
          { st := st, spoken := [], brk := false, listened := true,
            aiCalled := false, errorLogged := false }
        else
          let st1 : LoopState := { st with lastActivity := inp.t3 }
          if is_goodbye user_input then
            { st := st1, spoken := [goodbye_farewell], brk := true, listened := true,
              aiCalled := false, errorLogged := false }
          else
            let r := get_ai_response hasClient inp.lm inp.rand st1.memory user_input
            { st := { st1 with memory := r.2 }, spoken := [r.1], brk := false,
              listened := true, aiCalled := true, errorLogged := false }

/-- Result of one full iteration of the `while running` loop. -/
structure IterResult where
  st : LoopState
  spokenEvents : List String
  spokenBody : List String
  brk : Bool
  listened : Bool
  aiCalled : Bool
  errorLogged : Bool
deriving Repr

/-- One iteration of the `while running` loop (source lines 244-281): the
pygame event poll runs first, then the `try` body with the updated `running`
flag. -/
def stepIter (hasClient : Bool) (st : LoopState) (inp : TurnInput) : IterResult :=
  let ev := pollEvents st.running inp.events
  let b := tryBody hasClient { st with running := ev.2 } inp
  { st := b.st, spokenEvents := ev.1, spokenBody := b.spoken, brk := b.brk,
    listened := b.listened, aiCalled := b.aiCalled, errorLogged := b.errorLogged }

/-- The `while running` loop driven by a finite list of oracle inputs: stops
on `break`, on `running = False`, or when the oracle trace is exhausted.
Returns the final state and all utterances passed to `speak`. -/
def runLoop (hasClient : Bool) : LoopState → List TurnInput → LoopState × List String
  | st, [] => (st, [])
  | st, inp :: rest =>
    if st.running then
      let r := stepIter hasClient st inp
      if r.brk then (r.st, r.spokenEvents ++ r.spokenBody)
      else
        let tail := runLoop hasClient r.st rest
        (tail.1, (r.spokenEvents ++ r.spokenBody) ++ tail.2)
    else (st, [])

/-- `MayaAI.run_conversation` (source lines 228-288): greeting, timestamps
initialised to the session start `t0`, the loop, then `self.memory.clear()`
unconditionally (line 284). -/
def run_conversation (hasClient : Bool) (t0 : Int) (inputs : List TurnInput) :
    LoopState × List String :=
  let st0 : LoopState :=
    { sessionStart := t0, lastActivity := t0, memory := [], running := true }
  let r := runLoop hasClient st0 inputs
  ({ r.1 with memory := [] }, greeting :: r.2)

/-! ## Helper lemmas -/

/-- `random.choice` on a non-empty list returns an element of the list. -/
theorem pychoice_mem (l : List String) (k : Nat) (h : l ≠ []) : pychoice l k ∈ l := by
  unfold pychoice
  have hl : 0 < l.length := List.length_pos.mpr h
  have hk : k % l.length < l.length := Nat.mod_lt _ hl
  rw [List.getD_eq_getElem l "" hk]
  exact List.getElem_mem hk

/-- A quit-free event list leaves the poll accumulator untouched. -/
theorem pollEvents_foldl_id :
    ∀ (events : List PyEvent), PyEvent.quit ∉ events →
      ∀ acc : List String × Bool,
        events.foldl
          (fun acc e =>
            match e with
            | PyEvent.quit => (acc.1 ++ [quit_farewell], false)
            | PyEvent.other => acc) acc = acc := by
  intro events
  induction events with
  | nil => intro _ acc; rfl
  | cons e es ih =>
    intro h acc
    cases e with
    | quit => exact absurd (List.mem_cons_self _ _) h
    | other =>
      have h' : PyEvent.quit ∉ es := fun hm => h (List.mem_cons_of_mem _ hm)
      exact ih h' acc

/-- The event poll without QUIT events speaks nothing and keeps `running`. -/
theorem pollEvents_no_quit (r : Bool) (events : List PyEvent)
    (h : PyEvent.quit ∉ events) : pollEvents r events = ([], r) :=
  pollEvents_foldl_id events h ([], r)

/-! ## Claim theorems -/

/-- C1: any utterance that contains one of the fixed goodbye words as a
case-insensitive substring makes `is_goodbye` return `true`, and on a turn
that reaches such an utterance (no pending QUIT event, no exception, neither
timeout expired, non-empty transcription) the loop speaks exactly the one
goodbye farewell, breaks out, and never calls `get_ai_response`. -/
theorem C1_goodbye_turn_terminates :
    (∀ (text word : String), word ∈ goodbye_words →
        word.data <:+: (pyLower text).data → is_goodbye text = true) ∧
    (∀ (hasClient : Bool) (st : LoopState) (inp : TurnInput),
        PyEvent.quit ∉ inp.events → inp.fault = TurnFault.ok →
        inp.t1 - st.sessionStart ≤ SESSION_LIMIT →
        inp.t2 - st.lastActivity ≤ INACTIVITY_LIMIT →
        inp.heard ≠ "" → is_goodbye inp.heard = true →
        (stepIter hasClient st inp).spokenEvents
            ++ (stepIter hasClient st inp).spokenBody = [goodbye_farewell] ∧
        (stepIter hasClient st inp).brk = true ∧
        (stepIter hasClient st inp).aiCalled = false) := by
  constructor
  · intro text word hw hinf
    unfold is_goodbye
    apply List.any_eq_true.mpr
    refine ⟨word, hw, ?_⟩
    unfold containsSub
    exact decide_eq_true hinf
  · intro hc st inp hq hf h1 h2 hne hgb
    have hpoll := pollEvents_no_quit st.running inp.events hq
    have h1' : ¬(inp.t1 - st.sessionStart > SESSION_LIMIT) := by omega
    have h2' : ¬(inp.t2 - st.lastActivity > INACTIVITY_LIMIT) := by omega
    simp [stepIter, tryBody, hf, hpoll, h1', h2', hne, hgb]

/-- C1 witness: the goodbye utterance "okay bye now" at a concrete state. -/
theorem C1_goodbye_turn_terminates_witness :
    is_goodbye "okay bye now" = true ∧
    ((stepIter true ⟨0, 0, [], true⟩
        ⟨[], TurnFault.ok, 10, 10, "okay bye now", 10, LMOutcome.failure, 0⟩).spokenEvents
      ++ (stepIter true ⟨0, 0, [], true⟩
        ⟨[], TurnFault.ok, 10, 10, "okay bye now", 10, LMOutcome.failure, 0⟩).spokenBody
        = [goodbye_farewell] ∧
     (stepIter true ⟨0, 0, [], true⟩
        ⟨[], TurnFault.ok, 10, 10, "okay bye now", 10, LMOutcome.failure, 0⟩).brk = true ∧
     (stepIter true ⟨0, 0, [], true⟩
        ⟨[], TurnFault.ok, 10, 10, "okay bye now", 10, LMOutcome.failure, 0⟩).aiCalled = false) :=
  ⟨C1_goodbye_turn_terminates.1 "okay bye now" "bye" (by decide) (by decide),
   C1_goodbye_turn_terminates.2 true ⟨0, 0, [], true⟩
     ⟨[], TurnFault.ok, 10, 10, "okay bye now", 10, LMOutcome.failure, 0⟩
     (by decide) rfl (by decide) (by decide) (by decide) (by decide)⟩

/-- C2 counterexample: with the session started at time 0 and the check
reading time 300 = SESSION_LIMIT (elapsed ≥ L), the code's strict `>` test
does not fire: a listen attempt begins and the loop does not terminate. -/
theorem C2_boundary_turn_begins :
    (300 : Int) - (0 : Int) ≥ SESSION_LIMIT ∧
    (stepIter true ⟨0, 200, [], true⟩
        ⟨[], TurnFault.ok, 300, 300, "hello", 300, LMOutcome.failure, 0⟩).listened = true ∧
    (stepIter true ⟨0, 200, [], true⟩
        ⟨[], TurnFault.ok, 300, 300, "hello", 300, LMOutcome.failure, 0⟩).brk = false := by
  decide

/-- C2 amended: if the elapsed time since session start is strictly greater
than SESSION_LIMIT at the check, the iteration speaks the session farewell and
breaks before any listen attempt; and no listen attempt ever begins with
elapsed time strictly greater than SESSION_LIMIT. -/
theorem C2_session_limit_strict :
    (∀ (hasClient : Bool) (st : LoopState) (inp : TurnInput),
        inp.fault = TurnFault.ok → inp.t1 - st.sessionStart > SESSION_LIMIT →
        (stepIter hasClient st inp).brk = true ∧
        (stepIter hasClient st inp).listened = false ∧
        (stepIter hasClient st inp).spokenBody = [session_farewell]) ∧
    (∀ (hasClient : Bool) (st : LoopState) (inp : TurnInput),
        (stepIter hasClient st inp).listened = true →
        inp.t1 - st.sessionStart ≤ SESSION_LIMIT) := by
  constructor
  · intro hc st inp hf h
    simp [stepIter, tryBody, hf, h]
  · intro hc st inp h
    cases hf : inp.fault with
    | ok =>
      by_contra hlt
      have h1 : inp.t1 - st.sessionStart > SESSION_LIMIT := by omega
      simp [stepIter, tryBody, hf, h1] at h
    | exc => simp [stepIter, tryBody, hf] at h
    | kbInt => simp [stepIter, tryBody, hf] at h

/-- C2 witness: session expiry at elapsed 301, and a turn at elapsed 10. -/
theorem C2_session_limit_strict_witness :
    ((stepIter true ⟨0, 0, [], true⟩
        ⟨[], TurnFault.ok, 301, 301, "hello", 301, LMOutcome.failure, 0⟩).brk = true ∧
     (stepIter true ⟨0, 0, [], true⟩
        ⟨[], TurnFault.ok, 301, 301, "hello", 301, LMOutcome.failure, 0⟩).listened = false ∧
     (stepIter true ⟨0, 0, [], true⟩
        ⟨[], TurnFault.ok, 301, 301, "hello", 301, LMOutcome.failure, 0⟩).spokenBody
        = [session_farewell]) ∧
    (10 : Int) - (0 : Int) ≤ SESSION_LIMIT :=
  ⟨C2_session_limit_strict.1 true ⟨0, 0, [], true⟩
     ⟨[], TurnFault.ok, 301, 301, "hello", 301, LMOutcome.failure, 0⟩ rfl (by decide),
   C2_session_limit_strict.2 true ⟨0, 0, [], true⟩
     ⟨[], TurnFault.ok, 10, 10, "hello", 10, LMOutcome.failure, 0⟩ (by decide)⟩

/-- C3 counterexample: with last activity at time 0 and the check reading
time 120 = INACTIVITY_LIMIT (gap ≥ I), the code's strict `>` test does not
fire: a further listen attempt proceeds, no farewell is spoken and the loop
does not terminate. -/
theorem C3_boundary_listen_proceeds :
    (120 : Int) - (0 : Int) ≥ INACTIVITY_LIMIT ∧
    (stepIter true ⟨0, 0, [], true⟩
        ⟨[], TurnFault.ok, 120, 120, "hello", 120, LMOutcome.failure, 0⟩).listened = true ∧
    (stepIter true ⟨0, 0, [], true⟩
        ⟨[], TurnFault.ok, 120, 120, "hello", 120, LMOutcome.failure, 0⟩).brk = false ∧
    (stepIter true ⟨0, 0, [], true⟩
        ⟨[], TurnFault.ok, 120, 120, "hello", 120, LMOutcome.failure, 0⟩).spokenBody
      = ["That\x27s interesting. Tell me more!"] := by
  decide

/-- C3 amended: if the gap since last activity is strictly greater than
INACTIVITY_LIMIT (and the session limit has not expired), the iteration
speaks the inactivity farewell and breaks before any further listen attempt;
and no listen attempt ever begins with a gap strictly greater than
INACTIVITY_LIMIT. -/
theorem C3_inactivity_limit_strict :
    (∀ (hasClient : Bool) (st : LoopState) (inp : TurnInput),
        inp.fault = TurnFault.ok → inp.t1 - st.sessionStart ≤ SESSION_LIMIT →
        inp.t2 - st.lastActivity > INACTIVITY_LIMIT →
        (stepIter hasClient st inp).brk = true ∧
        (stepIter hasClient st inp).listened = false ∧
        (stepIter hasClient st inp).spokenBody = [inactivity_farewell]) ∧
    (∀ (hasClient : Bool) (st : LoopState) (inp : TurnInput),
        (stepIter hasClient st inp).listened = true →
        inp.t2 - st.lastActivity ≤ INACTIVITY_LIMIT) := by
  constructor
  · intro hc st inp hf h1 h2
    have h1' : ¬(inp.t1 - st.sessionStart > SESSION_LIMIT) := by omega
    simp [stepIter, tryBody, hf, h1', h2]
  · intro hc st inp h
    cases hf : inp.fault with
    | ok =>
      by_contra hlt
      have h2 : inp.t2 - st.lastActivity > INACTIVITY_LIMIT := by omega
      by_cases h1 : inp.t1 - st.sessionStart > SESSION_LIMIT
      · simp [stepIter, tryBody, hf, h1] at h
      · simp [stepIter, tryBody, hf, h1, h2] at h
    | exc => simp [stepIter, tryBody, hf] at h
    | kbInt => simp [stepIter, tryBody, hf] at h

/-- C3 witness: inactivity expiry at gap 200, and a turn at gap 10. -/
theorem C3_inactivity_limit_strict_witness :
    ((stepIter true ⟨0, 0, [], true⟩
        ⟨[], TurnFault.ok, 200, 200, "hello", 200, LMOutcome.failure, 0⟩).brk = true ∧
     (stepIter true ⟨0, 0, [], true⟩
        ⟨[], TurnFault.ok, 200, 200, "hello", 200, LMOutcome.failure, 0⟩).listened = false ∧
     (stepIter true ⟨0, 0, [], true⟩
        ⟨[], TurnFault.ok, 200, 200, "hello", 200, LMOutcome.failure, 0⟩).spokenBody
        = [inactivity_farewell]) ∧
    (10 : Int) - (0 : Int) ≤ INACTIVITY_LIMIT :=
  ⟨C3_inactivity_limit_strict.1 true ⟨0, 0, [], true⟩
     ⟨[], TurnFault.ok, 200, 200, "hello", 200, LMOutcome.failure, 0⟩ rfl (by decide) (by decide),
   C3_inactivity_limit_strict.2 true ⟨0, 0, [], true⟩
     ⟨[], TurnFault.ok, 10, 10, "hello", 10, LMOutcome.failure, 0⟩ (by decide)⟩

/-- C4: for every input whose lowercasing contains "sad" and every outcome of
the random choice, the fallback responder returns one of the three fixed
distress-category sentences. -/
theorem C4_sad_fallback_in_distress_set :
    ∀ (user_input : String) (k : Nat),
      containsSub (pyLower user_input) "sad" = true →
      _get_fallback_response user_input k ∈ distress_responses := by
  intro input k h
  have hany : (["sad", "upset", "bad", "terrible"].any
      fun word => containsSub (pyLower input) word) = true := by
    apply List.any_eq_true.mpr
    exact ⟨"sad", by simp, h⟩
  simp only [_get_fallback_response, hany, if_true]
  exact pychoice_mem _ _ (by simp [distress_responses])

/-- C4 witness: a concrete distressed input with random draw 7. -/
theorem C4_sad_fallback_in_distress_set_witness :
    _get_fallback_response "I feel so sad today" 7 ∈ distress_responses :=
  C4_sad_fallback_in_distress_set "I feel so sad today" 7 (by decide)

/-- C5 counterexample: with no language-model client, a completed exchange
("hello" answered by the fallback responder) appends nothing to the
conversation memory — it stays empty instead of gaining a user and an
assistant turn. -/
theorem C5_fallback_exchange_appends_nothing :
    (stepIter false ⟨0, 0, [], true⟩
        ⟨[], TurnFault.ok, 10, 10, "hello", 10, LMOutcome.failure, 0⟩).aiCalled = true ∧
    (stepIter false ⟨0, 0, [], true⟩
        ⟨[], TurnFault.ok, 10, 10, "hello", 10, LMOutcome.failure, 0⟩).spokenBody
      = ["That\x27s interesting. Tell me more!"] ∧
    (stepIter false ⟨0, 0, [], true⟩
        ⟨[], TurnFault.ok, 10, 10, "hello", 10, LMOutcome.failure, 0⟩).st.memory = [] := by
  decide

/-- C5 amended: memory is appended only on exchanges where the language-model
client is present and the call succeeds — then exactly one user and one
assistant turn are appended; when the client is absent or the call errors,
the fallback responder answers and memory is unchanged. -/
theorem C5_memory_append_exact :
    ∀ (memory : Memory) (user_input content : String) (k : Nat) (o : LMOutcome),
      (get_ai_response true (LMOutcome.success content) k memory user_input).2
        = memory ++ [(Role.user, user_input), (Role.assistant, pyStrip content)] ∧
      (get_ai_response true LMOutcome.failure k memory user_input).2 = memory ∧
      (get_ai_response false o k memory user_input).2 = memory := by
  intro m u c k o
  exact ⟨rfl, rfl, rfl⟩

/-- C6: on every session-ending path, `run_conversation` clears the
conversation memory unconditionally: whatever the oracle trace (and hence
whichever exit was taken), the returned state has an empty memory. -/
theorem C6_memory_cleared_on_exit :
    ∀ (hasClient : Bool) (t0 : Int) (inputs : List TurnInput),
      (run_conversation hasClient t0 inputs).1.memory = [] := by
  intro hc t0 inputs
  rfl

/-- C7: an exception (other than KeyboardInterrupt) raised during a turn is
caught and logged, the fixed apology is the only utterance spoken by the
body, no `break` is executed and `running` stays true, so the loop continues
to the next iteration with memory and timers untouched. -/
theorem C7_exception_apology_continue :
    ∀ (hasClient : Bool) (st : LoopState) (inp : TurnInput),
      st.running = true → PyEvent.quit ∉ inp.events → inp.fault = TurnFault.exc →
      (stepIter hasClient st inp).spokenBody = [apology] ∧
      (stepIter hasClient st inp).errorLogged = true ∧
      (stepIter hasClient st inp).brk = false ∧
      (stepIter hasClient st inp).st.running = true ∧
      (stepIter hasClient st inp).st.memory = st.memory ∧
      (stepIter hasClient st inp).st.lastActivity = st.lastActivity := by
  intro hc st inp hrun hq hf
  have hpoll := pollEvents_no_quit st.running inp.events hq
  rw [hrun] at hpoll
  simp [stepIter, tryBody, hf, hpoll, hrun]

/-- C7 witness: a faulting turn at a concrete state with one stored turn. -/
theorem C7_exception_apology_continue_witness :
    (stepIter true ⟨0, 0, [⟨Role.user, "hi"⟩], true⟩
        ⟨[], TurnFault.exc, 10, 10, "hello", 10, LMOutcome.failure, 0⟩).spokenBody = [apology] ∧
    (stepIter true ⟨0, 0, [⟨Role.user, "hi"⟩], true⟩
        ⟨[], TurnFault.exc, 10, 10, "hello", 10, LMOutcome.failure, 0⟩).errorLogged = true ∧
    (stepIter true ⟨0, 0, [⟨Role.user, "hi"⟩], true⟩
        ⟨[], TurnFault.exc, 10, 10, "hello", 10, LMOutcome.failure, 0⟩).brk = false ∧
    (stepIter true ⟨0, 0, [⟨Role.user, "hi"⟩], true⟩
        ⟨[], TurnFault.exc, 10, 10, "hello", 10, LMOutcome.failure, 0⟩).st.running = true ∧
    (stepIter true ⟨0, 0, [⟨Role.user, "hi"⟩], true⟩
        ⟨[], TurnFault.exc, 10, 10, "hello", 10, LMOutcome.failure, 0⟩).st.memory
      = [⟨Role.user, "hi"⟩] ∧
    (stepIter true ⟨0, 0, [⟨Role.user, "hi"⟩], true⟩
        ⟨[], TurnFault.exc, 10, 10, "hello", 10, LMOutcome.failure, 0⟩).st.lastActivity = 0 :=
  C7_exception_apology_continue true ⟨0, 0, [⟨Role.user, "hi"⟩], true⟩
    ⟨[], TurnFault.exc, 10, 10, "hello", 10, LMOutcome.failure, 0⟩ rfl (by decide) rfl

/-- C8: an iteration whose transcription is empty re-polls without resetting
the last-activity timestamp; and whenever the timestamp does change, the
transcription was non-empty and the timestamp was set to the reading taken
after listening. -/
theorem C8_empty_transcription_keeps_timer :
    (∀ (hasClient : Bool) (st : LoopState) (inp : TurnInput),
        inp.fault = TurnFault.ok →
        inp.t1 - st.sessionStart ≤ SESSION_LIMIT →
        inp.t2 - st.lastActivity ≤ INACTIVITY_LIMIT →
        inp.heard = "" →
        (stepIter hasClient st inp).st.lastActivity = st.lastActivity ∧
        (stepIter hasClient st inp).brk = false ∧
        (stepIter hasClient st inp).aiCalled = false) ∧
    (∀ (hasClient : Bool) (st : LoopState) (inp : TurnInput),
        (stepIter hasClient st inp).st.lastActivity ≠ st.lastActivity →
        inp.heard ≠ "" ∧ (stepIter hasClient st inp).st.lastActivity = inp.t3) := by
  constructor
  · intro hc st inp hf h1 h2 hemp
    have h1' : ¬(inp.t1 - st.sessionStart > SESSION_LIMIT) := by omega
    have h2' : ¬(inp.t2 - st.lastActivity > INACTIVITY_LIMIT) := by omega
    simp [stepIter, tryBody, hf, h1', h2', hemp]
  · intro hc st inp h
    cases hf : inp.fault with
    | ok =>
      by_cases h1 : inp.t1 - st.sessionStart > SESSION_LIMIT
      · simp [stepIter, tryBody, hf, h1] at h
      · by_cases h2 : inp.t2 - st.lastActivity > INACTIVITY_LIMIT
        · simp [stepIter, tryBody, hf, h1, h2] at h
        · by_cases hemp : inp.heard = ""
          · simp [stepIter, tryBody, hf, h1, h2, hemp] at h
          · refine ⟨hemp, ?_⟩
            by_cases hgb : is_goodbye inp.heard = true
            · simp [stepIter, tryBody, hf, h1, h2, hemp, hgb]
            · simp [stepIter, tryBody, hf, h1, h2, hemp, hgb]
    | exc => simp [stepIter, tryBody, hf] at h
    | kbInt => simp [stepIter, tryBody, hf] at h

/-- C8 witness: an empty transcription leaves the timer at 5; a non-empty
one at reading 50 sets it to 50. -/
theorem C8_empty_transcription_keeps_timer_witness :
    ((stepIter true ⟨0, 5, [], true⟩
        ⟨[], TurnFault.ok, 10, 10, "", 10, LMOutcome.failure, 0⟩).st.lastActivity = 5 ∧
     (stepIter true ⟨0, 5, [], true⟩
        ⟨[], TurnFault.ok, 10, 10, "", 10, LMOutcome.failure, 0⟩).brk = false ∧
     (stepIter true ⟨0, 5, [], true⟩
        ⟨[], TurnFault.ok, 10, 10, "", 10, LMOutcome.failure, 0⟩).aiCalled = false) ∧
    ("hello" ≠ "" ∧
     (stepIter true ⟨0, 0, [], true⟩
        ⟨[], TurnFault.ok, 10, 10, "hello", 50, LMOutcome.failure, 0⟩).st.lastActivity = 50) :=
  ⟨C8_empty_transcription_keeps_timer.1 true ⟨0, 5, [], true⟩
     ⟨[], TurnFault.ok, 10, 10, "", 10, LMOutcome.failure, 0⟩ rfl (by decide) (by decide) rfl,
   C8_empty_transcription_keeps_timer.2 true ⟨0, 0, [], true⟩
     ⟨[], TurnFault.ok, 10, 10, "hello", 50, LMOutcome.failure, 0⟩ (by decide)⟩

/-- C9: substring matching fires on words embedded in other words — "my
friend" and "I attended class" both contain "end", so `is_goodbye` accepts
them and the turn that hears "my friend" speaks the goodbye farewell and
terminates the session without calling the model. -/
theorem C9_substring_false_positive :
    is_goodbye "my friend" = true ∧
    is_goodbye "I attended class" = true ∧
    (stepIter true ⟨0, 0, [], true⟩
        ⟨[], TurnFault.ok, 10, 10, "my friend", 10, LMOutcome.failure, 0⟩).brk = true ∧
    (stepIter true ⟨0, 0, [], true⟩
        ⟨[], TurnFault.ok, 10, 10, "my friend", 10, LMOutcome.failure, 0⟩).spokenBody
      = [goodbye_farewell] ∧
    (stepIter true ⟨0, 0, [], true⟩
        ⟨[], TurnFault.ok, 10, 10, "my friend", 10, LMOutcome.failure, 0⟩).aiCalled = false := by
  decide

/-- C10: `speak` on text that is empty or all whitespace returns before any
effect: nothing is printed or synthesized, no temporary file is created or
deleted, no playback or animation starts, and the avatar face is unchanged. -/
theorem C10_speak_whitespace_noop :
    ∀ (text : String) (current_face : Face) (ttsOk : Bool) (picks : List Face),
      (∀ c ∈ text.data, isPySpace c = true) →
      speak text current_face ttsOk picks =
        { printed := [], tmp_created := false, playback_started := false,
          frames := [], tmp_deleted := false, current_face := current_face } := by
  intro text face ok picks h
  have h1 : text.data.dropWhile isPySpace = [] :=
    List.dropWhile_eq_nil_iff.mpr (by simpa using h)
  have hs : pyStrip text = "" := by
    unfold pyStrip
    rw [h1]
    rfl
  simp [speak, hs]

/-- C10 witness: whitespace-only text with the half-open face. -/
theorem C10_speak_whitespace_noop_witness :
    speak "  \t\n" Face.mouth_half true [Face.mouth_open] =
      { printed := [], tmp_created := false, playback_started := false,
        frames := [], tmp_deleted := false, current_face := Face.mouth_half } :=
  C10_speak_whitespace_noop "  \t\n" Face.mouth_half true [Face.mouth_open] (by decide)

end Maya
